import Mathlib

/-!
Shallow embedding of the Ride-and-Vibe backend (src/models.py and src/app.py).

The relational store (three tables: User, Ride, RideRequest) is modelled as
lists of records; each HTTP handler becomes a function from the store (plus
its request parameters) to a result and the store after the handler's
`db.session.commit()`.  Auto-increment primary keys and the bcrypt salt are
supplied by the caller as explicit parameters, as the database and bcrypt are
external collaborators.  `created_at` timestamps (set once from the external
clock, never read or mutated by any handler) are omitted from the records.
`price` is only stored and echoed, never computed with, so it is embedded as
an integer.  `departure_time` is embedded as an integer timestamp; the
handlers only compare it with `≥`.
-/

namespace RideVibe

/-- Model of a bcrypt hash: `bcrypt.hashpw` and `bcrypt.checkpw` are external
primitives (excluded collaborators per the spec); the model keeps only the
algebraic behaviour the handlers rely on: hashing the same password with the
salt recorded in the hash reproduces the hash.  The wrapper type is distinct
from `String`, so a stored hash is never the plaintext password itself. -/
structure BcryptHash where
  salt : Nat
  hashed : String
deriving DecidableEq, Repr

def hashpw (password : String) (salt : Nat) : BcryptHash :=
  ⟨salt, password⟩

def checkpw (password : String) (h : BcryptHash) : Bool :=
  hashpw password h.salt == h

/-- models.py `User` (id, email, password_hash, name). -/
structure User where
  id : Nat
  email : String
  password_hash : BcryptHash
  name : String
deriving DecidableEq, Repr

/-- models.py `Ride`.  `status` is one of "active", "completed", "cancelled";
`available_seats` is a Python int, so it is an `Int` here (the code can drive
it negative). -/
structure Ride where
  id : Nat
  start_location : String
  end_location : String
  available_seats : Int
  departure_time : Int
  price : Int
  status : String
  driver_id : Nat
deriving DecidableEq, Repr

/-- models.py `RideRequest`.  `status` is one of "pending", "accepted",
"rejected". -/
structure RideRequest where
  id : Nat
  status : String
  ride_id : Nat
  passenger_id : Nat
deriving DecidableEq, Repr

/-- The three relational tables. -/
structure Store where
  users : List User
  rides : List Ride
  requests : List RideRequest
deriving DecidableEq, Repr

/-- The error taxonomy of the handlers (spec section 7). -/
inductive Err where
  | duplicateEmail
  | invalidCredentials
  | notFound
  | rideNotActive
  | noSeatsAvailable
  | duplicateRequest
  | unauthorized
  | invalidStatus
deriving DecidableEq, Repr

/-- A handler outcome: the response plus the store after the handler
(unchanged when the handler returned before any `db.session` mutation). -/
structure HResult (α : Type) where
  result : Except Err α
  store : Store
deriving Repr

/-- `User.query.filter_by(email=email).first()`. -/
def findUserByEmail (s : Store) (email : String) : Option User :=
  s.users.find? (fun u => u.email == email)

/-- `Ride.query.get(ride_id)` (used through `get_or_404`). -/
def findRide (s : Store) (ride_id : Nat) : Option Ride :=
  s.rides.find? (fun r => r.id == ride_id)

/-- `RideRequest.query.get(request_id)` (used through `get_or_404`). -/
def findRequest (s : Store) (request_id : Nat) : Option RideRequest :=
  s.requests.find? (fun r => r.id == request_id)

/-- app.py `register`: duplicate-email lookup, then insert a user whose
password field holds the bcrypt hash of the supplied password. -/
def register (s : Store) (email name password : String) (salt newId : Nat) :
    HResult Unit :=
  match findUserByEmail s email with
  | some _ => ⟨.error .duplicateEmail, s⟩
  | none =>
      ⟨.ok (), { s with
        users := s.users ++ [⟨newId, email, hashpw password salt, name⟩] }⟩

/-- `JWT_ACCESS_TOKEN_EXPIRES = timedelta(hours=1)`, in seconds. -/
def JWT_ACCESS_TOKEN_EXPIRES : Nat := 3600

/-- Model of a signed bearer token: the encoded identity and its expiry. -/
structure Token where
  identity : Nat
  expiresInSeconds : Nat
deriving DecidableEq, Repr

/-- `create_access_token(identity=user.id)` under the app's JWT config. -/
def create_access_token (identity : Nat) : Token :=
  ⟨identity, JWT_ACCESS_TOKEN_EXPIRES⟩

/-- The JSON body of a successful login. -/
structure LoginResponse where
  access_token : Token
  user_id : Nat
  user_email : String
  user_name : String
deriving DecidableEq, Repr

/-- app.py `login`: lookup by email, bcrypt check, then token + profile.
No `db.session` mutation occurs, so the store component is the input store. -/
def login (s : Store) (email password : String) : HResult LoginResponse :=
  match findUserByEmail s email with
  | none => ⟨.error .invalidCredentials, s⟩
  | some user =>
      if checkpw password user.password_hash then
        ⟨.ok ⟨create_access_token user.id, user.id, user.email, user.name⟩, s⟩
      else
        ⟨.error .invalidCredentials, s⟩

/-- app.py `create_ride`: inserts a ride; `status` takes its column default
"active".  Returns the new ride's id. -/
def create_ride (s : Store) (driver_id : Nat)
    (start_location end_location : String)
    (available_seats departure_time price : Int) (newId : Nat) :
    HResult Nat :=
  ⟨.ok newId, { s with
    rides := s.rides ++
      [⟨newId, start_location, end_location, available_seats,
        departure_time, price, "active", driver_id⟩] }⟩

/-- Characters of a string lowercased: the model of SQL `ILIKE`
case-folding. -/
def lowerChars (v : String) : List Char :=
  v.toList.map Char.toLower

/-- `needle.isPrefixOf hay`-based substring test over `List Char`. -/
def hasSub (needle : List Char) : List Char → Bool
  | [] => needle.isEmpty
  | b :: ys => needle.isPrefixOf (b :: ys) || hasSub needle ys

/-- `column.ilike(f'%needle%')`: case-insensitive substring containment.
(Wildcard metacharacters inside the needle are interpreted by the external
SQL engine, which the spec excludes; the pattern built by the handler wraps
the needle in `%...%`, i.e. substring containment.) -/
def containsCI (needle hay : String) : Bool :=
  hasSub (lowerChars needle) (lowerChars hay)

/-- app.py `search_rides`.  `start`/`end` arrive from `request.args.get`
(`none` when absent); Python `if start:` treats the empty string like an
absent parameter.  `date` is the already-parsed `datetime.fromisoformat`
value when the parameter was supplied and non-empty. -/
def search_rides (s : Store) (start end_ : Option String)
    (date : Option Int) : List Ride :=
  let q1 := s.rides.filter (fun r => r.status == "active")
  let q2 := match start with
    | some v => if v = "" then q1
        else q1.filter (fun r => containsCI v r.start_location)
    | none => q1
  let q3 := match end_ with
    | some v => if v = "" then q2
        else q2.filter (fun r => containsCI v r.end_location)
    | none => q2
  match date with
  | some d => q3.filter (fun r => d ≤ r.departure_time)
  | none => q3

/-- app.py `request_ride`: 404 lookup, active check, seats check,
duplicate-request lookup (any status), then insert with default status
"pending". -/
def request_ride (s : Store) (ride_id current_user_id newId : Nat) :
    HResult Unit :=
  match findRide s ride_id with
  | none => ⟨.error .notFound, s⟩
  | some ride =>
      if ride.status ≠ "active" then ⟨.error .rideNotActive, s⟩
      else if ride.available_seats ≤ 0 then ⟨.error .noSeatsAvailable, s⟩
      else
        match s.requests.find?
            (fun r => r.ride_id == ride_id &&
                      r.passenger_id == current_user_id) with
        | some _ => ⟨.error .duplicateRequest, s⟩
        | none =>
            ⟨.ok (), { s with
              requests := s.requests ++
                [⟨newId, "pending", ride_id, current_user_id⟩] }⟩

/-- In-place ORM row mutation: rewrite the rows matching `p` with `g`. -/
def updateWhere {α : Type} (p : α → Bool) (g : α → α) (l : List α) :
    List α :=
  l.map (fun a => if p a then g a else a)

/-- `ride_request.status = new_status` followed by commit. -/
def setRequestStatus (l : List RideRequest) (request_id : Nat)
    (new_status : String) : List RideRequest :=
  updateWhere (fun r => r.id == request_id)
    (fun r => { r with status := new_status }) l

/-- `ride_request.ride.available_seats -= 1` followed by commit. -/
def decrementSeats (l : List Ride) (ride_id : Nat) : List Ride :=
  updateWhere (fun r => r.id == ride_id)
    (fun r => { r with available_seats := r.available_seats - 1 }) l

/-- app.py `update_ride_request`: 404 lookup, driver authorization, status
validation, then set the request's status and, on "accepted", decrement the
owning ride's seat count.  The current status of the request is never
consulted.  The `ride_id` foreign key is NOT NULL, so for stores produced by
the handlers the owning ride exists; the `none` ride branch is unreachable
and mirrors the lookup failing. -/
def update_ride_request (s : Store) (request_id current_user_id : Nat)
    (new_status : String) : HResult Unit :=
  match findRequest s request_id with
  | none => ⟨.error .notFound, s⟩
  | some req =>
      match findRide s req.ride_id with
      | none => ⟨.error .notFound, s⟩
      | some ride =>
          if ride.driver_id ≠ current_user_id then ⟨.error .unauthorized, s⟩
          else if ¬ (new_status = "accepted" ∨ new_status = "rejected") then
            ⟨.error .invalidStatus, s⟩
          else
            ⟨.ok (), { s with
              requests := setRequestStatus s.requests request_id new_status,
              rides := if new_status = "accepted" then
                  decrementSeats s.rides req.ride_id
                else s.rides }⟩

/-!
A concrete run of the handlers, used below as the reachable scenario: three
users register, user 1 posts a one-seat ride, users 2 and 3 request it, and
the driver accepts both requests.
-/

def s0 : Store := ⟨[], [], []⟩

def s1 : Store := (register s0 "driver@x.com" "Dana" "pw1" 0 1).store

def s2 : Store := (register s1 "alice@x.com" "Alice" "pw2" 0 2).store

def s3 : Store := (register s2 "bob@x.com" "Bob" "pw3" 0 3).store

def s4 : Store := (create_ride s3 1 "Boston" "New York" 1 1000 25 1).store

def s5 : Store := (request_ride s4 1 2 1).store

def s6 : Store := (request_ride s5 1 3 2).store

def s7 : Store := (update_ride_request s6 1 1 "accepted").store

def s8 : Store := (update_ride_request s7 2 1 "accepted").store

/-! Helper lemmas about the list-update model of row mutation. -/

theorem find_updateWhere {α : Type} (p : α → Bool) (g : α → α)
    (hg : ∀ a, p (g a) = p a) (l : List α) :
    (updateWhere p g l).find? p = (l.find? p).map g := by
  induction l with
  | nil => rfl
  | cons a t ih =>
      unfold updateWhere at *
      simp only [List.map_cons]
      by_cases h : p a
      · rw [if_pos h, List.find?_cons_of_pos _ (by rw [hg]; exact h),
          List.find?_cons_of_pos _ h]
        rfl
      · rw [if_neg h, List.find?_cons_of_neg _ h,
          List.find?_cons_of_neg _ h, ih]

theorem mem_updateWhere_of_neg {α : Type} {p : α → Bool} {g : α → α}
    {l : List α} {a : α} (ha : a ∈ l) (hp : p a = false) :
    a ∈ updateWhere p g l :=
  List.mem_map.mpr ⟨a, ha, by simp [hp]⟩

theorem mem_updateWhere_cases {α : Type} {p : α → Bool} {g : α → α}
    {l : List α} {a : α} (ha : a ∈ updateWhere p g l) :
    ∃ b, b ∈ l ∧ ((p b = true ∧ a = g b) ∨ (p b = false ∧ a = b)) := by
  obtain ⟨b, hb, hba⟩ := List.mem_map.mp ha
  by_cases h : p b
  · exact ⟨b, hb, .inl ⟨h, by rw [← hba, if_pos h]⟩⟩
  · exact ⟨b, hb, .inr ⟨by simpa using h, by rw [← hba, if_neg h]⟩⟩

theorem hasSub_nil (hay : List Char) : hasSub [] hay = true := by
  induction hay with
  | nil => rfl
  | cons b ys ih => simp [hasSub, List.isPrefixOf]

theorem containsCI_empty (hay : String) : containsCI "" hay = true :=
  hasSub_nil (lowerChars hay)

/-- Claim C1: the handlers keep `available_seats ≥ 0` on every reachable
store.  FALSE of the code: `update_ride_request` decrements the seat count
on every "accepted" update without checking the current count or the
request's current status.  In the reachable run below (one-seat ride, two
pending requests, driver accepts both — every step succeeds), the ride ends
with `available_seats = -1`. -/
theorem seats_can_go_negative :
    (request_ride s4 1 2 1).result = .ok () ∧
    (request_ride s5 1 3 2).result = .ok () ∧
    (update_ride_request s6 1 1 "accepted").result = .ok () ∧
    (update_ride_request s7 2 1 "accepted").result = .ok () ∧
    (findRide s8 1).map Ride.available_seats = some (-1) :=
  ⟨rfl, rfl, rfl, rfl, rfl⟩

/-- Claim C2, counterexample: "accepted" is not terminal.  In the reachable
store `s7` request 1 has status "accepted", yet the driver's
`update_ride_request` to "rejected" succeeds and the request ends up
"rejected": the handler never consults the current status. -/
theorem accepted_request_can_be_rejected :
    (findRequest s7 1).map RideRequest.status = some "accepted" ∧
    (update_ride_request s7 1 1 "rejected").result = .ok () ∧
    (findRequest (update_ride_request s7 1 1 "rejected").store 1).map
      RideRequest.status = some "rejected" :=
  ⟨rfl, rfl, rfl⟩

/-- Claim C2, amended: "pending" is the only status a request is created
with, and no exposed operation ever moves a request (back) to "pending" —
a successful `update_ride_request` always sets the named request to
"accepted" or "rejected".  (Transitions between the two terminal statuses,
however, are possible, as the counterexample shows.) -/
theorem pending_only_at_creation :
    (∀ s ride_id pid newId,
      (request_ride s ride_id pid newId).result = .ok () →
      (request_ride s ride_id pid newId).store.requests
        = s.requests ++ [⟨newId, "pending", ride_id, pid⟩]) ∧
    (∀ s request_id actor ns,
      (update_ride_request s request_id actor ns).result = .ok () →
      (ns = "accepted" ∨ ns = "rejected") ∧
      ∀ r, r ∈ (update_ride_request s request_id actor ns).store.requests →
        r.status = "pending" → r ∈ s.requests) := by
  constructor
  · intro s ride_id pid newId
    unfold request_ride
    split
    · intro h; exact Except.noConfusion h
    · split
      · intro h; exact Except.noConfusion h
      · split
        · intro h; exact Except.noConfusion h
        · split
          · intro h; exact Except.noConfusion h
          · intro _; rfl
  · intro s request_id actor ns
    unfold update_ride_request
    split
    · intro h; exact Except.noConfusion h
    · split
      · intro h; exact Except.noConfusion h
      · split
        · intro h; exact Except.noConfusion h
        · split
          · intro h; exact Except.noConfusion h
          · rename_i hauth hns
            intro _
            refine ⟨not_not.mp hns, ?_⟩
            intro r hr hp
            obtain ⟨b, hb, hcase⟩ := mem_updateWhere_cases hr
            rcases hcase with ⟨hpb, rfl⟩ | ⟨hpb, rfl⟩
            · exfalso
              have hval : ns = "accepted" ∨ ns = "rejected" := not_not.mp hns
              have hnsp : ns = "pending" := by simpa using hp
              rcases hval with hv | hv <;> rw [hv] at hnsp <;>
                exact absurd hnsp (by decide)
            · exact hb

/-- Witness for the amended claim C2 at concrete inputs: the request created
in `s4 → s5` is created with status "pending", and the accept in `s6 → s7`
carries a new status in the allowed terminal set. -/
theorem pending_only_at_creation_witness :
    (request_ride s4 1 2 1).store.requests
      = s4.requests ++ [⟨1, "pending", 1, 2⟩] ∧
    ("accepted" = "accepted" ∨ "accepted" = "rejected") :=
  ⟨pending_only_at_creation.1 s4 1 2 1 rfl,
   (pending_only_at_creation.2 s6 1 1 "accepted" rfl).1⟩

/-- Claim C6: `register` fails with DuplicateEmail (store untouched) when the
email is already present, and with a fresh email inserts exactly one user
carrying the given email and name and the bcrypt hash of the password (the
plaintext is never stored: the user's credential field is the hash). -/
theorem register_spec (s : Store) (email name password : String)
    (salt newId : Nat) :
    (∀ u, findUserByEmail s email = some u →
      register s email name password salt newId
        = ⟨.error .duplicateEmail, s⟩) ∧
    (findUserByEmail s email = none →
      (register s email name password salt newId).result = .ok () ∧
      (register s email name password salt newId).store.users
        = s.users ++ [⟨newId, email, hashpw password salt, name⟩] ∧
      (register s email name password salt newId).store.users.length
        = s.users.length + 1 ∧
      (register s email name password salt newId).store.rides = s.rides ∧
      (register s email name password salt newId).store.requests
        = s.requests) := by
  constructor
  · intro u hu; simp [register, hu]
  · intro h; simp [register, h]

/-- Witness for claim C6: registering Dana's email a second time fails with
DuplicateEmail and leaves the store alone; the first registration grew the
user table by one. -/
theorem register_spec_witness :
    register s1 "driver@x.com" "Eve" "pw9" 0 9
      = ⟨.error .duplicateEmail, s1⟩ ∧
    (register s0 "driver@x.com" "Dana" "pw1" 0 1).store.users.length
      = s0.users.length + 1 :=
  ⟨(register_spec s1 "driver@x.com" "Eve" "pw9" 0 9).1
      ⟨1, "driver@x.com", hashpw "pw1" 0, "Dana"⟩ rfl,
   ((register_spec s0 "driver@x.com" "Dana" "pw1" 0 1).2 rfl).2.2.1⟩

/-- Claim C7: `login` fails with InvalidCredentials when the email is unknown
or the password does not verify against the stored bcrypt hash; otherwise it
returns a token encoding the user's id with a 3600-second (1-hour) expiry
together with the user's id, email and name; and the handler never modifies
the store. -/
theorem login_spec (s : Store) (email password : String) :
    (findUserByEmail s email = none →
      login s email password = ⟨.error .invalidCredentials, s⟩) ∧
    (∀ u, findUserByEmail s email = some u →
      checkpw password u.password_hash = false →
      login s email password = ⟨.error .invalidCredentials, s⟩) ∧
    (∀ u, findUserByEmail s email = some u →
      checkpw password u.password_hash = true →
      login s email password
        = ⟨.ok ⟨⟨u.id, 3600⟩, u.id, u.email, u.name⟩, s⟩) ∧
    (login s email password).store = s := by
  refine ⟨?_, ?_, ?_, ?_⟩
  · intro h; simp [login, h]
  · intro u hu hc; simp [login, hu, hc]
  · intro u hu hc
    simp [login, hu, hc, create_access_token, JWT_ACCESS_TOKEN_EXPIRES]
  · cases h : findUserByEmail s email with
    | none => simp [login, h]
    | some u =>
        by_cases hc : checkpw password u.password_hash <;>
          simp [login, h, hc]

/-- Witness for claim C7: Dana logs in with the right password and gets a
1-hour token for id 1 plus her profile; a wrong password fails. -/
theorem login_spec_witness :
    login s1 "driver@x.com" "pw1"
      = ⟨.ok ⟨⟨1, 3600⟩, 1, "driver@x.com", "Dana"⟩, s1⟩ ∧
    login s1 "driver@x.com" "bad" = ⟨.error .invalidCredentials, s1⟩ :=
  ⟨(login_spec s1 "driver@x.com" "pw1").2.2.1
      ⟨1, "driver@x.com", hashpw "pw1" 0, "Dana"⟩ rfl rfl,
   (login_spec s1 "driver@x.com" "bad").2.1
      ⟨1, "driver@x.com", hashpw "pw1" 0, "Dana"⟩ rfl rfl⟩

/-- Claim C3: `request_ride` fails with NotFound when the ride is absent;
with RideNotActive when the ride exists but its status is not "active"; with
NoSeatsAvailable when the ride is active but has `available_seats ≤ 0`; with
DuplicateRequest when an active ride with seats already has a request for
this (ride, passenger) pair, whatever its status; and otherwise appends
exactly one new RideRequest with status "pending" for this ride and
passenger, touching nothing else. -/
theorem request_ride_spec (s : Store) (ride_id pid newId : Nat) :
    (findRide s ride_id = none →
      request_ride s ride_id pid newId = ⟨.error .notFound, s⟩) ∧
    (∀ ride, findRide s ride_id = some ride →
      (ride.status ≠ "active" →
        request_ride s ride_id pid newId = ⟨.error .rideNotActive, s⟩) ∧
      (ride.status = "active" → ride.available_seats ≤ 0 →
        request_ride s ride_id pid newId = ⟨.error .noSeatsAvailable, s⟩) ∧
      (ride.status = "active" → 0 < ride.available_seats →
        (∀ ex, s.requests.find?
            (fun r => r.ride_id == ride_id && r.passenger_id == pid)
              = some ex →
          request_ride s ride_id pid newId = ⟨.error .duplicateRequest, s⟩) ∧
        (s.requests.find?
            (fun r => r.ride_id == ride_id && r.passenger_id == pid)
              = none →
          (request_ride s ride_id pid newId).result = .ok () ∧
          (request_ride s ride_id pid newId).store
            = { s with requests :=
                s.requests ++ [⟨newId, "pending", ride_id, pid⟩] }))) := by
  refine ⟨?_, ?_⟩
  · intro h; simp [request_ride, h]
  · intro ride hr
    refine ⟨?_, ?_, ?_⟩
    · intro hst; simp [request_ride, hr, hst]
    · intro hst hseats; simp [request_ride, hr, hst, hseats]
    · intro hst hseats
      have hs : ¬ ride.available_seats ≤ 0 := not_le.mpr hseats
      refine ⟨?_, ?_⟩
      · intro ex hex; simp [request_ride, hr, hst, hs, hex]
      · intro hnone; simp [request_ride, hr, hst, hs, hnone]

/-- Witness for claim C3 at concrete inputs: on the empty store the lookup
404s; on `s4` passenger 2's first request succeeds and appends the pending
request; on `s5` the same passenger's second attempt is a DuplicateRequest. -/
theorem request_ride_spec_witness :
    request_ride s0 1 2 1 = ⟨.error .notFound, s0⟩ ∧
    (request_ride s4 1 2 1).result = .ok () ∧
    request_ride s5 1 2 9 = ⟨.error .duplicateRequest, s5⟩ :=
  ⟨(request_ride_spec s0 1 2 1).1 rfl,
   ((((request_ride_spec s4 1 2 1).2
      ⟨1, "Boston", "New York", 1, 1000, 25, "active", 1⟩ rfl).2.2
        rfl (by decide)).2 rfl).1,
   (((request_ride_spec s5 1 2 9).2
      ⟨1, "Boston", "New York", 1, 1000, 25, "active", 1⟩ rfl).2.2
        rfl (by decide)).1 ⟨1, "pending", 1, 2⟩ rfl⟩

/-- Claim C5: `update_ride_request` fails with NotFound when the request is
absent, with Unauthorized when the actor is not the owning ride's driver,
and with InvalidStatus when the new status is neither "accepted" nor
"rejected"; each failure leaves the store (request statuses and seat counts
included) exactly as it was. -/
theorem update_ride_request_errors (s : Store) (request_id actor : Nat)
    (ns : String) :
    (findRequest s request_id = none →
      update_ride_request s request_id actor ns = ⟨.error .notFound, s⟩) ∧
    (∀ req ride, findRequest s request_id = some req →
      findRide s req.ride_id = some ride → ride.driver_id ≠ actor →
      update_ride_request s request_id actor ns
        = ⟨.error .unauthorized, s⟩) ∧
    (∀ req ride, findRequest s request_id = some req →
      findRide s req.ride_id = some ride → ride.driver_id = actor →
      ns ≠ "accepted" → ns ≠ "rejected" →
      update_ride_request s request_id actor ns
        = ⟨.error .invalidStatus, s⟩) := by
  refine ⟨?_, ?_, ?_⟩
  · intro h; simp [update_ride_request, h]
  · intro req ride h1 h2 h3; simp [update_ride_request, h1, h2, h3]
  · intro req ride h1 h2 h3 h4 h5
    simp [update_ride_request, h1, h2, h3, h4, h5]

/-- Witness for claim C5 at concrete inputs on `s6`: request 99 does not
exist; passenger 2 is not ride 1's driver; "maybe" is not a valid status. -/
theorem update_ride_request_errors_witness :
    update_ride_request s6 99 1 "accepted" = ⟨.error .notFound, s6⟩ ∧
    update_ride_request s6 1 2 "accepted" = ⟨.error .unauthorized, s6⟩ ∧
    update_ride_request s6 1 1 "maybe" = ⟨.error .invalidStatus, s6⟩ :=
  ⟨(update_ride_request_errors s6 99 1 "accepted").1 rfl,
   (update_ride_request_errors s6 1 2 "accepted").2.1
      ⟨1, "pending", 1, 2⟩ ⟨1, "Boston", "New York", 1, 1000, 25, "active", 1⟩
      rfl rfl (by decide),
   (update_ride_request_errors s6 1 1 "maybe").2.2
      ⟨1, "pending", 1, 2⟩ ⟨1, "Boston", "New York", 1, 1000, 25, "active", 1⟩
      rfl rfl rfl (by decide) (by decide)⟩

/-- Claim C9: `request_ride` has no self-request guard: a ride's own driver,
on an active ride with a seat left and no prior request of theirs, succeeds
and a pending RideRequest naming the driver as passenger is created. -/
theorem request_ride_allows_driver (s : Store) (ride_id newId : Nat)
    (ride : Ride)
    (hr : findRide s ride_id = some ride)
    (hst : ride.status = "active")
    (hseats : 0 < ride.available_seats)
    (hnone : s.requests.find?
      (fun r => r.ride_id == ride_id && r.passenger_id == ride.driver_id)
        = none) :
    (request_ride s ride_id ride.driver_id newId).result = .ok () ∧
    (request_ride s ride_id ride.driver_id newId).store.requests
      = s.requests ++ [⟨newId, "pending", ride_id, ride.driver_id⟩] := by
  have hs : ¬ ride.available_seats ≤ 0 := not_le.mpr hseats
  simp [request_ride, hr, hst, hs, hnone]

/-- Witness for claim C9: in `s4` driver 1 requests their own ride 1 and a
pending request with passenger 1 is appended. -/
theorem request_ride_allows_driver_witness :
    (request_ride s4 1 1 3).result = .ok () ∧
    (request_ride s4 1 1 3).store.requests
      = s4.requests ++ [⟨3, "pending", 1, 1⟩] :=
  request_ride_allows_driver s4 1 3
    ⟨1, "Boston", "New York", 1, 1000, 25, "active", 1⟩
    rfl rfl (by decide) rfl

/-- Claim C10: `request_ride` is atomic on failure: whenever its result is an
error, the store it leaves behind is exactly the input store — no user, ride
or request record is created or modified. -/
theorem request_ride_atomic_on_failure (s : Store) (ride_id pid newId : Nat)
    (e : Err) (h : (request_ride s ride_id pid newId).result = .error e) :
    (request_ride s ride_id pid newId).store = s := by
  revert h
  unfold request_ride
  split
  · intro _; rfl
  · split
    · intro _; rfl
    · split
      · intro _; rfl
      · split
        · intro _; rfl
        · intro h; exact Except.noConfusion h

/-- Witness for claim C10: requesting the missing ride 1 on the empty store
fails and leaves the store untouched. -/
theorem request_ride_atomic_on_failure_witness :
    (request_ride s0 1 2 3).store = s0 :=
  request_ride_atomic_on_failure s0 1 2 3 .notFound rfl

/-- Claim C4: for an existing request whose owning ride's driver is the
actor, `update_ride_request` with "accepted" succeeds, sets the request's
status to "accepted", and replaces the owning ride by the same record with
`available_seats` decremented by exactly 1 (every other ride field equal);
rides with a different id are untouched, and the user table is untouched.
With "rejected" it succeeds, sets the request's status to "rejected", and
leaves the whole ride table (seat counts included) and user table
unchanged. -/
theorem update_ride_request_effect (s : Store) (request_id actor : Nat)
    (req : RideRequest) (ride : Ride)
    (hreq : findRequest s request_id = some req)
    (hride : findRide s req.ride_id = some ride)
    (hauth : ride.driver_id = actor) :
    ((update_ride_request s request_id actor "accepted").result = .ok () ∧
     findRequest (update_ride_request s request_id actor "accepted").store
        request_id = some { req with status := "accepted" } ∧
     findRide (update_ride_request s request_id actor "accepted").store
        req.ride_id
       = some { ride with available_seats := ride.available_seats - 1 } ∧
     (∀ r, r ∈ s.rides → (r.id == req.ride_id) = false →
        r ∈ (update_ride_request s request_id actor "accepted").store.rides) ∧
     (update_ride_request s request_id actor "accepted").store.users
        = s.users) ∧
    ((update_ride_request s request_id actor "rejected").result = .ok () ∧
     findRequest (update_ride_request s request_id actor "rejected").store
        request_id = some { req with status := "rejected" } ∧
     (update_ride_request s request_id actor "rejected").store.rides
        = s.rides ∧
     (update_ride_request s request_id actor "rejected").store.users
        = s.users) := by
  have hfq : s.requests.find? (fun r => r.id == request_id) = some req := hreq
  have hfd : s.rides.find? (fun r => r.id == req.ride_id) = some ride := hride
  have hrunA : update_ride_request s request_id actor "accepted"
      = ⟨.ok (), { s with
          requests := setRequestStatus s.requests request_id "accepted",
          rides := decrementSeats s.rides req.ride_id }⟩ := by
    simp [update_ride_request, hreq, hride, hauth]
  have hrunR : update_ride_request s request_id actor "rejected"
      = ⟨.ok (), { s with
          requests := setRequestStatus s.requests request_id "rejected" }⟩ := by
    simp [update_ride_request, hreq, hride, hauth]
  refine ⟨⟨?_, ?_, ?_, ?_, ?_⟩, ?_, ?_, ?_, ?_⟩
  · rw [hrunA]
  · rw [hrunA]
    show (setRequestStatus s.requests request_id "accepted").find?
      (fun r => r.id == request_id) = _
    unfold setRequestStatus
    rw [find_updateWhere (fun r => r.id == request_id)
      (fun r => { r with status := "accepted" }) (fun a => rfl) s.requests,
      hfq]
    rfl
  · rw [hrunA]
    show (decrementSeats s.rides req.ride_id).find?
      (fun r => r.id == req.ride_id) = _
    unfold decrementSeats
    rw [find_updateWhere (fun r => r.id == req.ride_id)
      (fun r => { r with available_seats := r.available_seats - 1 })
      (fun a => rfl) s.rides, hfd]
    rfl
  · intro r hrmem hrid
    rw [hrunA]
    exact mem_updateWhere_of_neg hrmem hrid
  · rw [hrunA]
  · rw [hrunR]
  · rw [hrunR]
    show (setRequestStatus s.requests request_id "rejected").find?
      (fun r => r.id == request_id) = _
    unfold setRequestStatus
    rw [find_updateWhere (fun r => r.id == request_id)
      (fun r => { r with status := "rejected" }) (fun a => rfl) s.requests,
      hfq]
    rfl
  · rw [hrunR]
  · rw [hrunR]

/-- Witness for claim C4 on `s6`: accepting request 1 drops ride 1's seat
count from 1 to 0 with all other ride fields intact, while rejecting it
leaves the ride table of `s6` unchanged. -/
theorem update_ride_request_effect_witness :
    (update_ride_request s6 1 1 "accepted").result = .ok () ∧
    findRide (update_ride_request s6 1 1 "accepted").store 1
      = some ⟨1, "Boston", "New York", 0, 1000, 25, "active", 1⟩ ∧
    (update_ride_request s6 1 1 "rejected").store.rides = s6.rides := by
  obtain ⟨hA, hR⟩ := update_ride_request_effect s6 1 1
    ⟨1, "pending", 1, 2⟩ ⟨1, "Boston", "New York", 1, 1000, 25, "active", 1⟩
    rfl rfl rfl
  exact ⟨hA.1, by simpa using hA.2.2.1, hR.2.2.1⟩

/-- Claim C8: `search_rides` returns exactly the rides whose status is
"active" that satisfy every supplied filter — case-insensitive substring
match of `start` on `start_location`, of `end` on `end_location`, and
`departure_time ≥ date` as an inclusive lower bound with no upper bound;
omitted filters exclude nothing, and no "completed" or "cancelled" ride is
ever returned (its status is not "active").  (The handler also skips a
supplied empty-string filter, Python truthiness; that agrees with the
spec side since the empty string is a substring of everything.) -/
theorem search_rides_spec (s : Store) (start end_ : Option String)
    (date : Option Int) (r : Ride) :
    r ∈ search_rides s start end_ date ↔
      r ∈ s.rides ∧ r.status = "active" ∧
      (∀ v, start = some v → containsCI v r.start_location = true) ∧
      (∀ v, end_ = some v → containsCI v r.end_location = true) ∧
      (∀ d, date = some d → d ≤ r.departure_time) := by
  rcases start with _ | v1 <;> rcases end_ with _ | v2 <;>
    rcases date with _ | d <;>
    simp only [search_rides] <;>
    (try by_cases hv1 : v1 = "") <;> (try by_cases hv2 : v2 = "") <;>
    simp_all [List.mem_filter, containsCI_empty] <;> tauto

/-- Witness for claim C8: in `s4`, the active Boston ride is found by the
case-insensitive start filter "bos" with a date bound of 500 ≤ 1000. -/
theorem search_rides_spec_witness :
    (⟨1, "Boston", "New York", 1, 1000, 25, "active", 1⟩ : Ride)
      ∈ search_rides s4 (some "bos") none (some 500) := by
  apply (search_rides_spec s4 (some "bos") none (some 500)
    ⟨1, "Boston", "New York", 1, 1000, 25, "active", 1⟩).mpr
  refine ⟨by decide, rfl, ?_, ?_, ?_⟩
  · intro v hv; cases hv; decide
  · intro v hv; cases hv
  · intro d hd; cases hd; decide

end RideVibe
